import Mathlib

/-!
Shallow embedding of the ai-api-service request-routing / provider-fallback
logic (src/app/services/huggingface_service.py, src/app/services/groq_service.py,
src/app/routers/ai.py), together with theorems settling the frozen claims about
the prompt classifier, the payload builder, the error-sniffing predicate, the
multi-model retry loop, the response parser, the Groq exception mapping, the
/ai/generate response envelope and the mock provider.

Python strings are modelled as Lean `String`; the string operations the code
uses (`lower`, `in`, `startswith`, `strip`, slicing, `capitalize`) are given
structural implementations over the character list so that concrete instances
evaluate by `decide`/`rfl`. Python floats are modelled as ℚ (the code only
compares and selects temperatures, never does float-specific arithmetic).
Network calls are external to this codebase: the raw per-model API call is an
oracle `call : String → String` from model name to result text, and the Groq
chat-completion call is an `Except String String` outcome (exception message or
generated text).
-/

namespace AiApi

/-- Python `pre`-test used by `startswith`: `startsWithL s p` is true iff the
character list `p` is a leading segment of `s`. -/
def startsWithL : List Char → List Char → Bool
  | _, [] => true
  | [], _ :: _ => false
  | c :: cs, p :: ps => c == p && startsWithL cs ps

/-- Python substring membership on character lists: `containsSub pat s` is true
iff `pat` occurs contiguously inside `s` (the semantics of Python `pat in s`). -/
def containsSub (pat : List Char) : List Char → Bool
  | [] => pat.isEmpty
  | s@(_ :: rest) => startsWithL s pat || containsSub pat rest

/-- Python `pat in s` on strings. -/
def strContains (s pat : String) : Bool :=
  containsSub pat.toList s.toList

/-- Python `str.lower()` (ASCII case folding, which is all the code relies on). -/
def pyLower (s : String) : String :=
  String.mk (s.toList.map Char.toLower)

/-- Python `str.strip()` with no argument: remove leading and trailing
whitespace. -/
def pyTrim (s : String) : String :=
  String.mk (((s.toList.dropWhile Char.isWhitespace).reverse.dropWhile
    Char.isWhitespace).reverse)

/-- Python `s.startswith(pre)`. -/
def pyStartsWith (s pre : String) : Bool :=
  startsWithL s.toList pre.toList

/-- Python slicing `s[:n]`. -/
def pyTake (s : String) (n : Nat) : String :=
  String.mk (s.toList.take n)

/-- Python `str.capitalize()`: first character uppercased, the rest lowercased. -/
def pyCapitalize (s : String) : String :=
  match s.toList with
  | [] => ""
  | c :: rest => String.mk (c.toUpper :: rest.map Char.toLower)

/-- Python `dict` lookup `d.get(key)` / `d[key]` for a dict written as a literal
(keys are unique in the literals the code uses, so first-match lookup agrees
with Python dict semantics). -/
def pyDictGet {α : Type} (key : String) : List (String × α) → Option α
  | [] => none
  | (k, v) :: rest => if k = key then some v else pyDictGet key rest

/-! ## HuggingFaceService (src/app/services/huggingface_service.py)

`self.models`, `_determine_model_type`, `_is_error`, the payload construction
of `_call_api`, `_parse_response` and the retry loop of `generate_text`. -/

/-- The static model catalog `self.models` built in `HuggingFaceService.__init__`
(lines 28-45). -/
def modelCatalog : List (String × List String) :=
  [("conversation", ["microsoft/DialoGPT-medium", "microsoft/DialoGPT-large"]),
   ("text_generation", ["gpt2", "distilgpt2"]),
   ("summarization", ["facebook/bart-large-cnn", "google/pegasus-xsum"]),
   ("text_to_text", ["google/t5-v1_1-base", "google/flan-t5-base"])]

/-- Keyword list of the first branch of `_determine_model_type` (line 72). -/
def conversation_keywords : List String :=
  ["hello", "hi", "how are you", "chat", "talk"]

/-- Keyword list of the second branch of `_determine_model_type` (line 74). -/
def summarization_keywords : List String :=
  ["summarize", "summary", "brief", "overview"]

/-- Keyword list of the third branch of `_determine_model_type` (line 76). -/
def text_to_text_keywords : List String :=
  ["translate", "convert", "transform"]

/-- `HuggingFaceService._determine_model_type` (lines 68-79): case-insensitive
keyword search over the lowered prompt, first matching branch wins. -/
def determine_model_type (prompt : String) : String :=
  let prompt_lower := pyLower prompt
  if conversation_keywords.any (fun word => strContains prompt_lower word) then
    "conversation"
  else if summarization_keywords.any (fun word => strContains prompt_lower word) then
    "summarization"
  else if text_to_text_keywords.any (fun word => strContains prompt_lower word) then
    "text_to_text"
  else
    "text_generation"

/-- The fixed indicator list of `_is_error` (line 83). -/
def error_indicators : List String :=
  ["error", "404", "503", "not found", "unavailable", "loading"]

/-- `HuggingFaceService._is_error` (lines 81-84): any indicator occurring in the
lowered result marks it as an error. -/
def is_error (result : String) : Bool :=
  error_indicators.any (fun indicator => strContains (pyLower result) indicator)

/-- The `parameters` object of the JSON payload built by `_call_api` (lines
92-104): one of three shapes depending on the model name. -/
inductive HFParams where
  | gptStyle (max_new_tokens : Nat)
  | seqStyle (max_length : Nat) (min_length : Nat)
  | defaultStyle (max_length : Nat) (temperature : ℚ)
deriving DecidableEq

/-- The temperature clamp `max(0.1, min(temperature, 1.0))` on line 96. -/
def clampTemperature (t : ℚ) : ℚ :=
  max 0.1 (min t 1.0)

/-- The net parameter shape sent by `_call_api` (lines 92-104): the code first
builds the default `max_length` + clamped-temperature dict and then replaces it
wholesale when the lowered model name contains "gpt", or "bart"/"pegasus"; the
replacement makes the result exactly this three-way case split. -/
def buildParams (model_name : String) (max_tokens : Nat) (temperature : ℚ) : HFParams :=
  if strContains (pyLower model_name) "gpt" then
    HFParams.gptStyle max_tokens
  else if strContains (pyLower model_name) "bart" || strContains (pyLower model_name) "pegasus" then
    HFParams.seqStyle max_tokens 10
  else
    HFParams.defaultStyle max_tokens (clampTemperature temperature)

/-- The full JSON payload of `_call_api`: the prompt under `inputs` plus the
per-model `parameters`. -/
structure HFPayload where
  inputs : String
  parameters : HFParams
deriving DecidableEq

/-- Payload assembly of `_call_api` (lines 92-104). -/
def buildPayload (model_name prompt : String) (max_tokens : Nat) (temperature : ℚ) : HFPayload :=
  { inputs := prompt, parameters := buildParams model_name max_tokens temperature }

/-- The fixed apology returned when every candidate fails (line 63). -/
def apologyText : String :=
  "Sorry, all models are currently unavailable. Please try again later."

/-- The loop body of `generate_text` (lines 54-63) over the remaining candidate
models: call each model, skip results `_is_error` flags, and return the first
clean result — annotated with the capitalized category and the model name when
that model differs from the configured default (`self.model`). The `time.sleep(1)`
between attempts has no effect on the returned value and is not modelled. -/
def tryModels (call : String → String) (defaultModel model_type : String) :
    List String → String
  | [] => apologyText
  | m :: rest =>
    let result := call m
    if is_error result then
      tryModels call defaultModel model_type rest
    else if m ≠ defaultModel then
      "[" ++ pyCapitalize model_type ++ " model: " ++ m ++ "] " ++ result
    else
      result

/-- The message Python produces for the `KeyError` that a failed catalog lookup
would raise on line 52, as caught and formatted by the handler on line 66. -/
def keyErrorText (key : String) : String :=
  "Error: \x27" ++ key ++ "\x27"

/-- `HuggingFaceService.generate_text` (lines 47-66). `call m` stands for the
result text of `self._call_api(m, prompt, max_tokens, temperature)` — the raw
network call is external, so it enters the embedding as an oracle from model
name to result. `defaultModel` is `self.model`. The only statement inside the
`try` that can raise is the catalog subscript on line 52; its failure path is
the `none` branch (proved unreachable in `hf_generate_total`). -/
def generate_text (call : String → String) (defaultModel prompt : String) : String :=
  let model_type := determine_model_type prompt
  match pyDictGet model_type modelCatalog with
  | some ms => tryModels call defaultModel model_type (ms ++ [defaultModel])
  | none => keyErrorText model_type

/-- Modelled from the spec (§4.2, for the refinement claim C1): the candidate
list is the matched category's models followed by the default model, the first
candidate whose result is not an error wins, a non-default winner is annotated,
and exhaustion yields the fixed apology. -/
def generateSpec (call : String → String) (defaultModel prompt : String) : String :=
  let category := determine_model_type prompt
  let candidates := (pyDictGet category modelCatalog).getD [] ++ [defaultModel]
  match candidates.find? (fun m => ! is_error (call m)) with
  | none => apologyText
  | some m =>
    if m = defaultModel then call m
    else "[" ++ pyCapitalize category ++ " model: " ++ m ++ "] " ++ call m

/-! ## Response parsing (`_parse_response`, lines 116-139)

The decoded JSON value `response.json()` is modelled by `PyVal`: the shapes the
parser inspects are strings, numbers, lists and string-keyed objects. -/

/-- A decoded JSON value as `_parse_response` receives it. -/
inductive PyVal where
  | str : String → PyVal
  | int : Int → PyVal
  | list : List PyVal → PyVal
  | dict : List (String × PyVal) → PyVal

/-- The Python type name of a value, as it appears in exception messages. -/
def PyVal.typeName : PyVal → String
  | .str _ => "str"
  | .int _ => "int"
  | .list _ => "list"
  | .dict _ => "dict"

mutual

/-- Python `repr` of a decoded value (strings in the code's data contain no
quotes or escapes, so string repr is plain single-quote wrapping). -/
def pyRepr : PyVal → String
  | .str s => "\x27" ++ s ++ "\x27"
  | .int n => toString n
  | .list xs => "[" ++ pyReprItems xs ++ "]"
  | .dict kvs => "\x7b" ++ pyReprEntries kvs ++ "\x7d"

/-- Comma-joined reprs of list elements. -/
def pyReprItems : List PyVal → String
  | [] => ""
  | [x] => pyRepr x
  | x :: y :: rest => pyRepr x ++ ", " ++ pyReprItems (y :: rest)

/-- Comma-joined `key: value` reprs of dict entries. -/
def pyReprEntries : List (String × PyVal) → String
  | [] => ""
  | [(k, v)] => "\x27" ++ k ++ "\x27: " ++ pyRepr v
  | (k, v) :: e :: rest =>
    "\x27" ++ k ++ "\x27: " ++ pyRepr v ++ ", " ++ pyReprEntries (e :: rest)

end

/-- Python `str()` of a decoded value: identity on strings, repr on everything
else (for ints and containers `str` and `repr` agree). -/
def pyStr : PyVal → String
  | .str s => s
  | v => pyRepr v

/-- `field.strip()` as applied to an extracted field value: on a string it
trims; on any other value Python raises `AttributeError`, which the handler on
lines 138-139 formats as a `Parse error:` string that becomes the return value. -/
def stripAttr : PyVal → String
  | .str s => pyTrim s
  | v =>
    "Parse error: \x27" ++ v.typeName ++ "\x27 object has no attribute \x27strip\x27"

/-- The shared field-extraction chain of `_parse_response`: the first field
present among `generated_text`, `summary_text`, `translation_text` in that
order (the if/elif chain on lines 122-127 and the key loop on lines 131-133
walk the same keys in the same order). -/
def extractField (kvs : List (String × PyVal)) : Option String :=
  match pyDictGet "generated_text" kvs with
  | some v => some (stripAttr v)
  | none =>
    match pyDictGet "summary_text" kvs with
    | some v => some (stripAttr v)
    | none =>
      match pyDictGet "translation_text" kvs with
      | some v => some (stripAttr v)
      | none => none

/-- `HuggingFaceService._parse_response` (lines 116-139): a non-empty list is
inspected through its first element; dict elements go through the field chain;
everything unrecognized is stringified and trimmed (an empty list fails the
truthiness test on line 119 and falls through to line 136). -/
def parse_response (response_data : PyVal) : String :=
  match response_data with
  | .list (item :: _) =>
    match item with
    | .dict kvs =>
      match extractField kvs with
      | some s => s
      | none => pyTrim (pyStr item)
    | _ => pyTrim (pyStr item)
  | .dict kvs =>
    match extractField kvs with
    | some s => s
    | none => pyTrim (pyStr response_data)
  | _ => pyTrim (pyStr response_data)

/-! ## GroqService (src/app/services/groq_service.py) -/

/-- The rate-limit message returned on line 81. -/
def rateLimitText : String :=
  "Error: Rate limit exceeded. Please try again in a moment."

/-- The authentication message returned on line 83. -/
def authFailText : String :=
  "Error: Invalid API key. Please check your GROQ_API_KEY."

/-- The connection message returned on line 85. -/
def connFailText : String :=
  "Error: Connection failed. Please check your internet connection."

/-- `GroqService.generate_text` (lines 48-87). The chat-completion call is
external; its outcome arrives as `Except.ok text` (the extracted message
content of the API response) or `Except.error e` (the text of the exception the
client raised). The handler maps the exception text case-insensitively to one
of three specific messages or a generic `Error:` string; every outcome is a
returned string, never a propagated exception. -/
def groq_generate_text (outcome : Except String String) : String :=
  match outcome with
  | .ok text => text
  | .error e =>
    if strContains (pyLower e) "rate limit" then rateLimitText
    else if strContains (pyLower e) "authentication" then authFailText
    else if strContains (pyLower e) "connection" then connFailText
    else "Error: " ++ e

/-! ## Request router (src/app/routers/ai.py) -/

/-- The `TextGenerationResponse` model (lines 51-56). -/
structure TextGenerationResponse where
  generated_text : String
  model : String
  provider : String
  success : Bool
  error : Option String
deriving DecidableEq

/-- The envelope logic of the `/ai/generate` endpoint (lines 71-86) applied to
the text the active provider returned: a result starting with `Error:` becomes
a failure envelope carrying the full text in `error`, anything else a success
envelope carrying the text verbatim. `modelName` and `providerName` stand for
the environment-derived model string and the active provider tag. -/
def generate_endpoint (providerResult modelName providerName : String) :
    TextGenerationResponse :=
  if pyStartsWith providerResult "Error:" then
    { generated_text := "", model := modelName, provider := providerName,
      success := false, error := some providerResult }
  else
    { generated_text := providerResult, model := modelName, provider := providerName,
      success := true, error := none }

/-- `generate_text_mock` (lines 38-39): the deterministic fallback installed
when neither provider is configured; echoes the first 50 characters of the
prompt inside a fixed template, ignoring `max_tokens` and `temperature`. -/
def generate_text_mock (prompt : String) (max_tokens : Nat) (temperature : ℚ) : String :=
  "[Mock Response] I received your prompt: \x27" ++ pyTake prompt 50 ++
    "...\x27. Please configure an AI provider."

/-! ## Theorems -/

/-- C2: the prompt classifier is a pure function into the four categories by
case-insensitive substring membership in fixed priority order — conversation
keywords first, then summarization, then translation/transform, else
text_generation — so conversation wins whenever its keywords are present,
whatever else the prompt contains. -/
theorem classifier_characterization (p : String) :
    (determine_model_type p = "conversation" ↔
      ∃ w ∈ conversation_keywords, strContains (pyLower p) w = true)
  ∧ (determine_model_type p = "summarization" ↔
      (¬ ∃ w ∈ conversation_keywords, strContains (pyLower p) w = true) ∧
      ∃ w ∈ summarization_keywords, strContains (pyLower p) w = true)
  ∧ (determine_model_type p = "text_to_text" ↔
      (¬ ∃ w ∈ conversation_keywords, strContains (pyLower p) w = true) ∧
      (¬ ∃ w ∈ summarization_keywords, strContains (pyLower p) w = true) ∧
      ∃ w ∈ text_to_text_keywords, strContains (pyLower p) w = true)
  ∧ (determine_model_type p = "text_generation" ↔
      (¬ ∃ w ∈ conversation_keywords, strContains (pyLower p) w = true) ∧
      (¬ ∃ w ∈ summarization_keywords, strContains (pyLower p) w = true) ∧
      (¬ ∃ w ∈ text_to_text_keywords, strContains (pyLower p) w = true))
  ∧ determine_model_type p ∈
      ["conversation", "summarization", "text_to_text", "text_generation"] := by
  simp only [determine_model_type]
  split_ifs with h1 h2 h3 <;>
    refine ⟨?_, ?_, ?_, ?_, ?_⟩ <;>
    simp_all [List.any_eq_true]

/-- C4: `_is_error` flags a result exactly when its lowered text contains one of
the six fixed indicator substrings; in particular legitimate generated text
containing such a word (here the word "loading") is also flagged. -/
theorem is_error_characterization (r : String) :
    (is_error r = true ↔ ∃ ind ∈ error_indicators, strContains (pyLower r) ind = true)
  ∧ is_error "The ship is loading cargo at the dock" = true := by
  constructor
  · simp [is_error, List.any_eq_true]
  · decide

/-- C3: the payload parameters sent by `_call_api` are decided by
case-insensitive substring match on the model name — "gpt" names get only
`max_new_tokens`, otherwise "bart"/"pegasus" names get `max_length` +
`min_length` 10, every other name gets `max_length` plus the temperature
clamped into [0.1, 1.0]; the clamp sends 1.5 to 1.0 and -0.2 to 0.1. -/
theorem call_api_payload (name : String) (mt : Nat) (t : ℚ) :
    (strContains (pyLower name) "gpt" = true →
      buildParams name mt t = HFParams.gptStyle mt)
  ∧ (strContains (pyLower name) "gpt" = false →
      (strContains (pyLower name) "bart" = true ∨
        strContains (pyLower name) "pegasus" = true) →
      buildParams name mt t = HFParams.seqStyle mt 10)
  ∧ (strContains (pyLower name) "gpt" = false →
      strContains (pyLower name) "bart" = false →
      strContains (pyLower name) "pegasus" = false →
      buildParams name mt t = HFParams.defaultStyle mt (clampTemperature t))
  ∧ clampTemperature 1.5 = 1.0
  ∧ clampTemperature (-0.2) = 0.1 := by
  refine ⟨?_, ?_, ?_, ?_, ?_⟩
  · intro h; simp [buildParams, h]
  · intro h hbp
    have hor : (strContains (pyLower name) "bart" ||
        strContains (pyLower name) "pegasus") = true := by
      rcases hbp with hb | hb <;> simp [hb]
    simp [buildParams, h, hor]
  · intro h hb hp; simp [buildParams, h, hb, hp]
  · unfold clampTemperature
    rw [min_eq_right (by norm_num), max_eq_right (by norm_num)]
  · unfold clampTemperature
    rw [min_eq_left (by norm_num), max_eq_left (by norm_num)]

/-- Witness for C3 at concrete model names of the catalog: a gpt-style name, a
bart-style name, and a t5 name that takes the default clamped-temperature
shape. -/
theorem call_api_payload_witness :
    buildParams "gpt2" 50 0.7 = HFParams.gptStyle 50
  ∧ buildParams "facebook/bart-large-cnn" 50 0.7 = HFParams.seqStyle 50 10
  ∧ buildParams "google/t5-v1_1-base" 50 1.5 = HFParams.defaultStyle 50 (clampTemperature 1.5) :=
  ⟨(call_api_payload "gpt2" 50 0.7).1 (by decide),
   (call_api_payload "facebook/bart-large-cnn" 50 0.7).2.1 (by decide) (Or.inl (by decide)),
   (call_api_payload "google/t5-v1_1-base" 50 1.5).2.2.1 (by decide) (by decide) (by decide)⟩

/-- Witness for C2 at a prompt containing both conversation and summarization
keywords: conversation wins. -/
theorem classifier_characterization_witness :
    determine_model_type "Hello! Please summarize our chat" = "conversation" :=
  (classifier_characterization "Hello! Please summarize our chat").1.mpr
    ⟨"hello", by decide, by decide⟩

/-- Witness for C4 at a concrete flagged result. -/
theorem is_error_characterization_witness :
    is_error "Warning: ERROR 503" = true :=
  (is_error_characterization "Warning: ERROR 503").1.mpr ⟨"error", by decide, by decide⟩

/-- The retry loop is first-success selection: `tryModels` over any candidate
list returns what `List.find?` of a non-error result dictates — the apology on
exhaustion, the bare result for the default model, the annotated result
otherwise. -/
theorem tryModels_eq_find (call : String → String) (d mt : String) (l : List String) :
    tryModels call d mt l =
      match l.find? (fun m => ! is_error (call m)) with
      | none => apologyText
      | some m =>
        if m = d then call m
        else "[" ++ pyCapitalize mt ++ " model: " ++ m ++ "] " ++ call m := by
  induction l with
  | nil => rfl
  | cons m rest ih =>
    simp only [tryModels, List.find?]
    by_cases h : is_error (call m)
    · simp [h, ih]
    · simp only [h, Bool.not_false, if_neg (by simp [h] : ¬ is_error (call m) = true)]
      by_cases hm : m = d <;> simp [hm]

/-- The classifier output is always a key of the model catalog, so the
subscript `self.models[model_type]` always succeeds. -/
theorem classifier_lookup_eq (p : String) :
    ∃ ms, pyDictGet (determine_model_type p) modelCatalog = some ms := by
  simp only [determine_model_type]
  split_ifs <;> exact ⟨_, rfl⟩

/-- If every candidate's result is flagged as an error, the loop exhausts and
returns the fixed apology. -/
theorem tryModels_all_error (call : String → String) (d mt : String) (l : List String)
    (h : ∀ m ∈ l, is_error (call m) = true) :
    tryModels call d mt l = apologyText := by
  induction l with
  | nil => rfl
  | cons m rest ih =>
    have hm := h m (by simp)
    simp only [tryModels, hm, if_pos]
    exact ih (fun x hx => h x (by simp [hx]))

/-- C1: `generate_text` builds its candidate list as the classified category's
models followed by the configured default model (appended unconditionally),
tries them in order, and returns the first non-error result — annotated with
the capitalized category and model name exactly when the succeeding candidate
is not the default model. Stated as refinement against `generateSpec`, the
spec-worded first-success selection. -/
theorem hf_generate_first_success (call : String → String) (d p : String) :
    generate_text call d p = generateSpec call d p := by
  obtain ⟨ms, hms⟩ := classifier_lookup_eq p
  simp only [generate_text, generateSpec, hms, Option.getD_some]
  exact tryModels_eq_find call d (determine_model_type p) (ms ++ [d])

/-- C5: when every model of the classified category and the default model
return error-flagged results, `generate_text` returns exactly the fixed
apology string rather than raising. -/
theorem hf_generate_all_fail (call : String → String) (d p : String)
    (h : ∀ m ∈ (pyDictGet (determine_model_type p) modelCatalog).getD [] ++ [d],
      is_error (call m) = true) :
    generate_text call d p =
      "Sorry, all models are currently unavailable. Please try again later." := by
  obtain ⟨ms, hms⟩ := classifier_lookup_eq p
  simp only [generate_text, hms]
  exact tryModels_all_error call d _ _ (by simpa [hms] using h)

/-- Witness for C5: an oracle whose every result is the literal "error" defeats
every candidate, and the apology comes back. -/
theorem hf_generate_all_fail_witness :
    generate_text (fun _ => "error") "m0" "hi" =
      "Sorry, all models are currently unavailable. Please try again later." :=
  hf_generate_all_fail (fun _ => "error") "m0" "hi" (by decide)

/-- C10: `generate_text` is total — the classifier lands in the catalog's key
set for every prompt, so the catalog subscript never fails and the function
always takes the retry-loop branch (never the caught-exception branch) for
every oracle, default model and prompt. -/
theorem hf_generate_total (p : String) :
    (pyDictGet (determine_model_type p) modelCatalog).isSome = true
  ∧ determine_model_type p ∈
      ["conversation", "summarization", "text_to_text", "text_generation"]
  ∧ ∀ (call : String → String) (d : String),
      generate_text call d p =
        tryModels call d (determine_model_type p)
          ((pyDictGet (determine_model_type p) modelCatalog).getD [] ++ [d]) := by
  obtain ⟨ms, hms⟩ := classifier_lookup_eq p
  refine ⟨by simp [hms], ?_, ?_⟩
  · simp only [determine_model_type]
    split_ifs <;> simp
  · intro call d
    simp only [generate_text, hms, Option.getD_some]

/-- C6: the `/ai/generate` endpoint reshapes a provider result starting with
"Error:" into a failure envelope — success false, empty generated_text, the
full text in the error field — and returns any other result verbatim as a
success envelope with no error. -/
theorem generate_endpoint_envelope (res modelName providerName : String) :
    (pyStartsWith res "Error:" = true →
      generate_endpoint res modelName providerName =
        { generated_text := "", model := modelName, provider := providerName,
          success := false, error := some res })
  ∧ (pyStartsWith res "Error:" = false →
      generate_endpoint res modelName providerName =
        { generated_text := res, model := modelName, provider := providerName,
          success := true, error := none }) := by
  constructor <;> intro h <;> simp [generate_endpoint, h]

/-- Witness for C6: one error-prefixed and one clean provider result. -/
theorem generate_endpoint_envelope_witness :
    generate_endpoint "Error: boom" "m" "groq" =
      { generated_text := "", model := "m", provider := "groq",
        success := false, error := some "Error: boom" }
  ∧ generate_endpoint "all fine" "m" "groq" =
      { generated_text := "all fine", model := "m", provider := "groq",
        success := true, error := none } :=
  ⟨(generate_endpoint_envelope "Error: boom" "m" "groq").1 (by decide),
   (generate_endpoint_envelope "all fine" "m" "groq").2 (by decide)⟩

/-- C7: when the underlying Groq call raises with a message containing
"rate limit" in any letter case, `generate_text` returns exactly the fixed
rate-limit string — the exception is mapped to a return value, not propagated. -/
theorem groq_rate_limit (e : String)
    (h : strContains (pyLower e) "rate limit" = true) :
    groq_generate_text (Except.error e) =
      "Error: Rate limit exceeded. Please try again in a moment." := by
  simp [groq_generate_text, h, rateLimitText]

/-- Witness for C7 at a mixed-case exception message. -/
theorem groq_rate_limit_witness :
    groq_generate_text (Except.error "HTTP 429: Rate Limit reached") =
      "Error: Rate limit exceeded. Please try again in a moment." :=
  groq_rate_limit "HTTP 429: Rate Limit reached" (by decide)

/-- C8: `_parse_response` extracts from a non-empty object list (through its
first element) or a single object the first field present among
generated_text, summary_text, translation_text, in that priority order,
whitespace-trimmed; unrecognized shapes are stringified and trimmed. In
particular `[{"summary_text": "  X  "}]` yields "X" and
`{"translation_text": "Y"}` yields "Y". -/
theorem parse_response_fields :
    (∀ (s : String) (rest : List PyVal),
      parse_response (PyVal.list (PyVal.dict [("summary_text", PyVal.str s)] :: rest)) =
        pyTrim s)
  ∧ (∀ (s : String), parse_response (PyVal.dict [("translation_text", PyVal.str s)]) =
      pyTrim s)
  ∧ (∀ (g s t : String) (rest : List PyVal),
      parse_response (PyVal.list (PyVal.dict
          [("generated_text", PyVal.str g), ("summary_text", PyVal.str s),
            ("translation_text", PyVal.str t)] :: rest)) =
        pyTrim g)
  ∧ (∀ (g s t : String),
      parse_response (PyVal.dict
          [("generated_text", PyVal.str g), ("summary_text", PyVal.str s),
            ("translation_text", PyVal.str t)]) =
        pyTrim g)
  ∧ (∀ (s t : String),
      parse_response (PyVal.dict
          [("summary_text", PyVal.str s), ("translation_text", PyVal.str t)]) =
        pyTrim s)
  ∧ parse_response (PyVal.list [PyVal.dict [("summary_text", PyVal.str "  X  ")]]) = "X"
  ∧ parse_response (PyVal.dict [("translation_text", PyVal.str "Y")]) = "Y"
  ∧ (∀ (n : Int), parse_response (PyVal.int n) = pyTrim (pyStr (PyVal.int n)))
  ∧ (∀ (xs : List PyVal), parse_response (PyVal.list (PyVal.list xs :: [])) =
      pyTrim (pyStr (PyVal.list xs)))
  ∧ parse_response (PyVal.list []) = pyTrim (pyStr (PyVal.list [])) := by
  refine ⟨?_, ?_, ?_, ?_, ?_, ?_, ?_, ?_, ?_, ?_⟩ <;>
    first
      | intro a b c d; rfl
      | intro a b c; rfl
      | intro a b; rfl
      | intro a; rfl
      | rfl

/-- C9: with the mock provider active, `/ai/generate` on the request
`{prompt: "hi"}` produces a success envelope whose generated_text starts with
the template filled with the prompt — and in general the mock echoes the first
50 characters of the prompt verbatim inside that fixed template, ignoring
`max_tokens` and `temperature`. -/
theorem mock_endpoint_hi :
    (generate_endpoint (generate_text_mock "hi" 100 0.7) "unknown" "mock").success = true
  ∧ pyStartsWith
      (generate_endpoint (generate_text_mock "hi" 100 0.7) "unknown" "mock").generated_text
      "[Mock Response] I received your prompt: \x27hi...\x27" = true
  ∧ ∀ (p : String) (mt : Nat) (temp : ℚ),
      generate_text_mock p mt temp =
        "[Mock Response] I received your prompt: \x27" ++ pyTake p 50 ++
          "...\x27. Please configure an AI provider." := by
  refine ⟨by decide, by decide, fun p mt temp => rfl⟩
